import Mathlib

/-!
Verification of the AquaLive groundwater prediction pipeline
(`src/backend/app.py`) via a shallow embedding in Lean 4.

Modelling conventions:
* Python floats are modelled as rationals (`ℚ`); the transcendental
  `np.sin` / `np.cos` are abstracted by a `TrigOracle` parameter whose
  `sin01 x` / `cos01 x` stand for `sin (2*pi*x)` / `cos (2*pi*x)` — every
  call site in the source has the shape `np.sin(2 * np.pi * e)`.
* The loaded model artifacts (scaler, two base models, residual model,
  blend weights) are opaque parameters bundled in `Artifacts`; each model
  evaluation is fallible (`Except String`), mirroring Python exceptions.
* The `try/except` in the `/predict` endpoint is modelled by the
  `Except` monad plus an error translation (`Except.mapError`).
-/

namespace AquaLive

/-- A parsed calendar date, as produced by `datetime.strptime(v, "%Y-%m-%d")`. -/
structure DateYMD where
  year : ℕ
  month : ℕ
  day : ℕ
deriving DecidableEq

/-- Gregorian leap-year rule used by Python's `datetime`. -/
def isLeapYear (y : ℕ) : Bool :=
  y % 4 = 0 && (y % 100 != 0 || y % 400 = 0)

/-- Number of days in a month of a given year (Python `calendar`/`datetime` rule). -/
def days_in_month (y m : ℕ) : ℕ :=
  if m = 2 then (if isLeapYear y then 29 else 28)
  else if m = 4 ∨ m = 6 ∨ m = 9 ∨ m = 11 then 30
  else 31

/-- `date_obj.timetuple().tm_yday`: 1-based ordinal day of the year. -/
def day_of_year (dt : DateYMD) : ℕ :=
  ((List.range (dt.month - 1)).map (fun i => days_in_month dt.year (i + 1))).sum + dt.day

/-- Split a character list at every `-`, keeping empty groups
(the char-level counterpart of `String.splitOn "-"`). -/
def splitOnDash : List Char → List (List Char)
  | [] => [[]]
  | c :: cs =>
    let r := splitOnDash cs
    if c = '-' then [] :: r
    else
      match r with
      | [] => [[c]]
      | g :: gs => (c :: g) :: gs

/-- Read a non-empty all-digit character list as a natural number. -/
def parseNatDigits (cs : List Char) : Option ℕ :=
  if cs ≠ [] ∧ cs.all Char.isDigit then
    some (cs.foldl (fun a c => 10 * a + (c.toNat - 48)) 0)
  else none

/-- One numeric field of the date string: all digits, with a length range
(CPython `_strptime` matches `%Y` as exactly four digits and `%m`, `%d` as
one or two digits). -/
def digitField (cs : List Char) (lo hi : ℕ) : Option ℕ :=
  if lo ≤ cs.length ∧ cs.length ≤ hi then parseNatDigits cs else none

/-- `datetime.strptime(v, "%Y-%m-%d")`: split on `-`, read a four-digit
year and one/two-digit month and day, then validate the calendar values
(month 1–12, day within the month, year at least `datetime.MINYEAR = 1`).
Returns `none` exactly when Python raises `ValueError`. -/
def parseDate (s : String) : Option DateYMD :=
  match splitOnDash s.data with
  | [ys, ms, ds] =>
    match digitField ys 4 4, digitField ms 1 2, digitField ds 1 2 with
    | some y, some m, some d =>
      if 1 ≤ y ∧ 1 ≤ m ∧ m ≤ 12 ∧ 1 ≤ d ∧ d ≤ days_in_month y m then
        some ⟨y, m, d⟩
      else none
    | _, _, _ => none
  | _ => none

/-- Abstraction of `np.sin` / `np.cos` at arguments of the form `2*pi*x`:
`sin01 x` stands for `sin (2*pi*x)` and `cos01 x` for `cos (2*pi*x)`. -/
structure TrigOracle where
  sin01 : ℚ → ℚ
  cos01 : ℚ → ℚ

/-- The training-metadata artifact (`saved_models/training_metadata_1.json`),
with the fields the repository's spec attributes to it: the feature name
list, the calibrated quality metrics, and the training year bounds. -/
structure TrainingMetadata where
  features : List String
  calibrated_r2 : ℚ
  calibrated_rmse : ℚ
  year_min : ℚ
  year_max : ℚ

/-- The process-wide globals of `app.py` (lines 51–59): year bounds, the
feature name list, and the three precomputed mean values. -/
structure Globals where
  year_min : ℚ
  year_max : ℚ
  features : List String
  spatial_lag_mean : ℚ
  prev_measurement_mean : ℚ
  prev_year_measurement_mean : ℚ

/-- Module-level initialisation of the globals from the loaded metadata
(`app.py` lines 51–59): `year_min`/`year_max` and the three means are
assigned the literal constants `1994`, `2024`, `12.5`, `11.8`, `12.1`;
only `features` is read out of the metadata artifact. -/
def loadGlobals (md : TrainingMetadata) : Globals :=
  { year_min := 1994
    year_max := 2024
    features := md.features
    spatial_lag_mean := 12.5
    prev_measurement_mean := 11.8
    prev_year_measurement_mean := 12.1 }

/-- Python's `%` on reals: `x % n = x - n * floor (x / n)` (sign follows the
divisor). -/
def pyMod (x n : ℚ) : ℚ := x - n * ⌊x / n⌋

/-- `int((abs(latitude) + abs(longitude)) % 50)` (`app.py` line 138): the
modulus is non-negative, so `int` truncation agrees with `floor`. -/
def cluster_idx (latitude longitude : ℚ) : ℕ :=
  (⌊pyMod (|latitude| + |longitude|) 50⌋).toNat

/-- `cluster_features = [0]*50; cluster_features[cluster_idx] = 1`
(`app.py` lines 137–139). -/
def cluster_features (latitude longitude : ℚ) : List ℚ :=
  (List.replicate 50 (0 : ℚ)).set (cluster_idx latitude longitude) 1

/-- `is_summer = 1 if month in [4, 5, 6] else 0` (`app.py` line 127). -/
def is_summer (month : ℕ) : ℚ := if month ∈ [4, 5, 6] then 1 else 0

/-- `is_winter = 1 if month in [11, 12, 1] else 0` (`app.py` line 128). -/
def is_winter (month : ℕ) : ℚ := if month ∈ [11, 12, 1] then 1 else 0

/-- `is_spring = 1 if month in [2, 3] else 0` (`app.py` line 129). -/
def is_spring (month : ℕ) : ℚ := if month ∈ [2, 3] then 1 else 0

/-- `doy_sin = np.sin(2 * np.pi * day_of_year/365)` (`app.py` line 119). -/
def doy_sin (trig : TrigOracle) (dt : DateYMD) : ℚ :=
  trig.sin01 ((day_of_year dt : ℚ) / 365)

/-- `doy_cos = np.cos(2 * np.pi * day_of_year/365)` (`app.py` line 120). -/
def doy_cos (trig : TrigOracle) (dt : DateYMD) : ℚ :=
  trig.cos01 ((day_of_year dt : ℚ) / 365)

/-- `month_sin = np.sin(2 * np.pi * month/12)` (`app.py` line 121). -/
def month_sin (trig : TrigOracle) (dt : DateYMD) : ℚ :=
  trig.sin01 ((dt.month : ℚ) / 12)

/-- `month_cos = np.cos(2 * np.pi * month/12)` (`app.py` line 122). -/
def month_cos (trig : TrigOracle) (dt : DateYMD) : ℚ :=
  trig.cos01 ((dt.month : ℚ) / 12)

/-- `year_sin = np.sin(2 * np.pi * (year - year_min) / (year_max - year_min))`
(`app.py` line 123). -/
def year_sin (trig : TrigOracle) (cfg : Globals) (dt : DateYMD) : ℚ :=
  trig.sin01 (((dt.year : ℚ) - cfg.year_min) / (cfg.year_max - cfg.year_min))

/-- `year_cos = np.cos(2 * np.pi * (year - year_min) / (year_max - year_min))`
(`app.py` line 124). -/
def year_cos (trig : TrigOracle) (cfg : Globals) (dt : DateYMD) : ℚ :=
  trig.cos01 (((dt.year : ℚ) - cfg.year_min) / (cfg.year_max - cfg.year_min))

/-- The `feature_values` list built by `prepare_features` (`app.py`
lines 142–146) for an already-parsed date: the fifteen named features in
source order followed by the fifty cluster features. -/
def prepare_feature_values (trig : TrigOracle) (cfg : Globals)
    (latitude longitude : ℚ) (dt : DateYMD) : List ℚ :=
  [latitude, longitude, doy_sin trig dt, doy_cos trig dt,
   month_sin trig dt, month_cos trig dt,
   (dt.year : ℚ), year_sin trig cfg dt, year_cos trig cfg dt,
   is_summer dt.month, is_winter dt.month, is_spring dt.month,
   cfg.spatial_lag_mean, cfg.prev_measurement_mean,
   cfg.prev_year_measurement_mean] ++ cluster_features latitude longitude

/-- `prepare_features(latitude, longitude, date_str)` (`app.py`
lines 108–148): parses the date string (a `ValueError` from `strptime`
makes the whole call raise, modelled as `none`) and builds the feature
row. -/
def prepare_features (trig : TrigOracle) (cfg : Globals)
    (latitude longitude : ℚ) (date_str : String) : Option (List ℚ) :=
  (parseDate date_str).map (prepare_feature_values trig cfg latitude longitude)

/-- The request body (`PredictionInput`, `app.py` lines 75–78). -/
structure PredictionInput where
  latitude : ℚ
  longitude : ℚ
  date : String
deriving DecidableEq

/-- The response body (`PredictionOutput`, `app.py` lines 100–103). -/
structure PredictionOutput where
  prediction : ℚ
  confidence : Option ℚ := none
  units : String := "meters below ground level"
deriving DecidableEq

/-- The `validate_latitude` pydantic validator (`app.py` lines 80–84). -/
def validate_latitude (v : ℚ) : Except String ℚ :=
  if -90 ≤ v ∧ v ≤ 90 then .ok v
  else .error "Latitude must be between -90 and 90"

/-- The `validate_longitude` pydantic validator (`app.py` lines 86–90). -/
def validate_longitude (v : ℚ) : Except String ℚ :=
  if -180 ≤ v ∧ v ≤ 180 then .ok v
  else .error "Longitude must be between -180 and 180"

/-- The `validate_date_format` pydantic validator (`app.py` lines 92–98):
`strptime` failing is turned into a validation error. -/
def validate_date_format (v : String) : Except String String :=
  match parseDate v with
  | some _ => .ok v
  | none => .error "Date must be in YYYY-MM-DD format"

/-- Construction of a validated `PredictionInput`: pydantic runs the three
field validators before the endpoint body ever sees the request. -/
def mkPredictionInput (latitude longitude : ℚ) (date : String) :
    Except String PredictionInput :=
  match validate_latitude latitude with
  | .error e => .error e
  | .ok la =>
    match validate_longitude longitude with
    | .error e => .error e
    | .ok lo =>
      match validate_date_format date with
      | .error e => .error e
      | .ok dt => .ok ⟨la, lo, dt⟩

/-- The loaded model artifacts consumed by the endpoint: the fitted scaler
(`scaler.transform`), the two base models and the residual model
(each `model.predict(...)[0]`), and the two ensemble weights from
`ensemble_weights_1.json`. Model evaluations may raise, hence
`Except String`. -/
structure Artifacts where
  transform : List ℚ → Except String (List ℚ)
  xgbPredict : List ℚ → Except String ℚ
  stackingPredict : List ℚ → Except String ℚ
  residualPredict : List ℚ → Except String ℚ
  xgb_weight : ℚ
  stacking_weight : ℚ

/-- `weighted_ensemble_predictions(xgb_pred, stacking_pred, weights)`
(`app.py` lines 150–152): `weights[0] * xgb_pred + weights[1] * stacking_pred`. -/
def weighted_ensemble_predictions (xgb_pred stacking_pred : ℚ) (weights : List ℚ) : ℚ :=
  weights.getD 0 0 * xgb_pred + weights.getD 1 0 * stacking_pred

/-- The confidence heuristic of `app.py` line 191:
`max(0.7, 1.0 - abs(final_prediction - 10) / 20)`. -/
def confidence_of (final_prediction : ℚ) : ℚ :=
  max 0.7 (1 - |final_prediction - 10| / 20)

/-- Caller-visible failures of the service: a pydantic validation rejection
(HTTP 422) or the generic `HTTPException(500, "Prediction error: ...")`. -/
inductive ApiError where
  | inputError (msg : String)
  | predictionError (msg : String)
deriving DecidableEq

/-- The body of the `try` block of the `/predict` endpoint (`app.py`
lines 162–199): synthesize features, scale, run the two base models,
blend with the loaded weights, add the residual correction, and score
confidence. Any stage raising aborts the whole block. -/
def predictCore (trig : TrigOracle) (cfg : Globals) (a : Artifacts)
    (input_data : PredictionInput) : Except String PredictionOutput :=
  match prepare_features trig cfg input_data.latitude input_data.longitude input_data.date with
  | none => .error "time data does not match format"
  | some features_array =>
    match a.transform features_array with
    | .error e => .error e
    | .ok features_scaled =>
      match a.xgbPredict features_scaled with
      | .error e => .error e
      | .ok xgb_pred =>
        match a.stackingPredict features_scaled with
        | .error e => .error e
        | .ok stacking_pred =>
          let ensemble_pred := weighted_ensemble_predictions xgb_pred stacking_pred
            [a.xgb_weight, a.stacking_weight]
          match a.residualPredict features_scaled with
          | .error e => .error e
          | .ok residual_pred =>
            let final_prediction := ensemble_pred + residual_pred
            let confidence := max 0.7 (1 - |final_prediction - 10| / 20)
            .ok { prediction := final_prediction
                  confidence := some confidence
                  units := "meters below ground level" }

/-- The `/predict` endpoint body (`app.py` lines 157–203): the catch-all
`except` turns any exception from the pipeline into
`HTTPException(500, "Prediction error: ...")`. -/
def predict (trig : TrigOracle) (cfg : Globals) (a : Artifacts)
    (input_data : PredictionInput) : Except ApiError PredictionOutput :=
  (predictCore trig cfg a input_data).mapError
    (fun e => ApiError.predictionError ("Prediction error: " ++ e))

/-- A full request: pydantic validation of the raw fields first (its
rejection never enters the endpoint body), then the endpoint. -/
def handleRequest (trig : TrigOracle) (cfg : Globals) (a : Artifacts)
    (latitude longitude : ℚ) (date : String) : Except ApiError PredictionOutput :=
  match mkPredictionInput latitude longitude date with
  | .error e => .error (.inputError e)
  | .ok input_data => predict trig cfg a input_data

/-- A full request together with the process log (`logger.info` /
`logger.error` calls in the endpoint, `app.py` lines 163, 193, 202); the
log is the only process state a request touches. -/
def handleLogged (trig : TrigOracle) (cfg : Globals) (a : Artifacts)
    (latitude longitude : ℚ) (date : String) (log : List String) :
    Except ApiError PredictionOutput × List String :=
  match mkPredictionInput latitude longitude date with
  | .error e => (.error (.inputError e), log)
  | .ok input_data =>
    let log1 := log ++ ["Received prediction request: " ++ toString input_data.latitude
      ++ " " ++ toString input_data.longitude ++ " " ++ input_data.date]
    match predict trig cfg a input_data with
    | .ok out => (.ok out, log1 ++ ["Prediction completed: " ++ toString out.prediction ++ " meters"])
    | .error e => (.error e, log1 ++ ["Prediction failed"])

/-! ### Helper lemmas -/

lemma pyMod_nonneg (x n : ℚ) (hn : 0 < n) : 0 ≤ pyMod x n := by
  unfold pyMod
  have h := Int.floor_le (x / n)
  have h2 : n * (⌊x / n⌋ : ℚ) ≤ n * (x / n) := by
    exact mul_le_mul_of_nonneg_left h hn.le
  have h3 : n * (x / n) = x := by field_simp
  linarith

lemma pyMod_lt (x n : ℚ) (hn : 0 < n) : pyMod x n < n := by
  unfold pyMod
  have h := Int.lt_floor_add_one (x / n)
  have h2 : n * (x / n) < n * ((⌊x / n⌋ : ℚ) + 1) := by
    exact mul_lt_mul_of_pos_left h hn
  have h3 : n * (x / n) = x := by field_simp
  rw [h3, mul_add, mul_one] at h2
  linarith

lemma cluster_idx_lt (lat lon : ℚ) : cluster_idx lat lon < 50 := by
  unfold cluster_idx
  have h1 : pyMod (|lat| + |lon|) 50 < 50 := pyMod_lt _ _ (by norm_num)
  have h2 : (⌊pyMod (|lat| + |lon|) 50⌋ : ℚ) ≤ pyMod (|lat| + |lon|) 50 :=
    Int.floor_le _
  have h3 : ⌊pyMod (|lat| + |lon|) 50⌋ < 50 := by exact_mod_cast lt_of_le_of_lt h2 h1
  omega

lemma length_cluster_features (lat lon : ℚ) :
    (cluster_features lat lon).length = 50 := by
  simp [cluster_features]

lemma sum_replicate_set_one (n k : ℕ) (hk : k < n) :
    ((List.replicate n (0 : ℚ)).set k 1).sum = 1 := by
  rw [List.set_eq_take_cons_drop _ (by simpa using hk)]
  simp

lemma cluster_features_getD_self (lat lon : ℚ) :
    (cluster_features lat lon).getD (cluster_idx lat lon) 0 = 1 := by
  have hlt : cluster_idx lat lon < (cluster_features lat lon).length := by
    rw [length_cluster_features]; exact cluster_idx_lt lat lon
  rw [List.getD_eq_getElem _ _ hlt]
  exact List.getElem_set_self _

lemma cluster_features_getD_other (lat lon : ℚ) (j : ℕ)
    (hj : j ≠ cluster_idx lat lon) :
    (cluster_features lat lon).getD j 0 = 0 := by
  unfold cluster_features
  rw [List.getD_eq_getElem?_getD, List.getElem?_set_ne (Ne.symm hj),
      List.getElem?_replicate]
  by_cases hcase : j < 50
  · rw [if_pos hcase]; rfl
  · rw [if_neg hcase]; rfl

lemma drop_15_feature_values (trig : TrigOracle) (cfg : Globals)
    (lat lon : ℚ) (dt : DateYMD) :
    (prepare_feature_values trig cfg lat lon dt).drop 15 = cluster_features lat lon := by
  rfl

/-! ### Claim theorems -/

/-- **C2.** For every input, the cluster segment (positions 16–65 of the
feature vector) has exactly one entry equal to 1 — at the bucket index
`floor((|latitude| + |longitude|) mod 50)` — and all other entries 0, so
it sums to exactly 1. -/
theorem c2_cluster_segment_one_hot (trig : TrigOracle) (cfg : Globals)
    (lat lon : ℚ) (dt : DateYMD) :
    (prepare_feature_values trig cfg lat lon dt).drop 15 = cluster_features lat lon ∧
    cluster_idx lat lon = (⌊pyMod (|lat| + |lon|) 50⌋).toNat ∧
    (cluster_features lat lon).getD (cluster_idx lat lon) 0 = 1 ∧
    (∀ j, j ≠ cluster_idx lat lon → (cluster_features lat lon).getD j 0 = 0) ∧
    (cluster_features lat lon).sum = 1 := by
  refine ⟨drop_15_feature_values trig cfg lat lon dt, rfl,
    cluster_features_getD_self lat lon,
    fun j hj => cluster_features_getD_other lat lon j hj, ?_⟩
  exact sum_replicate_set_one 50 (cluster_idx lat lon) (cluster_idx_lt lat lon)

/-- Witness for C2 at the spec's end-to-end coordinates
(latitude 28.6139, longitude 77.2090): the bucket index is 5, the entry
there is 1, and a different position (7) is 0. -/
theorem c2_cluster_segment_one_hot_witness :
    (cluster_features 28.6139 77.2090).getD (cluster_idx 28.6139 77.2090) 0 = 1 ∧
    (cluster_features 28.6139 77.2090).getD 7 0 = 0 ∧
    cluster_idx 28.6139 77.2090 = 5 := by
  have hidx : cluster_idx 28.6139 77.2090 = 5 := by
    unfold cluster_idx pyMod
    rw [abs_of_nonneg (by norm_num : (0 : ℚ) ≤ 28.6139),
        abs_of_nonneg (by norm_num : (0 : ℚ) ≤ 77.2090)]
    norm_num
    rfl
  have h := c2_cluster_segment_one_hot ⟨fun _ => 0, fun _ => 0⟩
    (loadGlobals ⟨[], 0, 0, 0, 0⟩) 28.6139 77.2090 ⟨2024, 6, 15⟩
  exact ⟨h.2.2.1, h.2.2.2.1 7 (by rw [hidx]; decide), hidx⟩

/-- **C10.** For validated coordinates the computed cluster index
`int((|latitude| + |longitude|) % 50)` lies in `[0, 49]`, the cluster
list has 50 entries (so the write is in bounds), and feature synthesis
succeeds on every date string that parses. -/
theorem c10_cluster_index_in_bounds (lat lon : ℚ)
    (h1 : -90 ≤ lat) (h2 : lat ≤ 90) (h3 : -180 ≤ lon) (h4 : lon ≤ 180) :
    cluster_idx lat lon < 50 ∧
    (cluster_features lat lon).length = 50 ∧
    (∀ (trig : TrigOracle) (cfg : Globals) (s : String) (dt : DateYMD),
      parseDate s = some dt →
      prepare_features trig cfg lat lon s =
        some (prepare_feature_values trig cfg lat lon dt)) := by
  refine ⟨cluster_idx_lt lat lon, length_cluster_features lat lon, ?_⟩
  intro trig cfg s dt hs
  simp [prepare_features, hs]

/-- Witness for C10 at latitude 28.6139, longitude 77.2090 and date
`2024-06-15`. -/
theorem c10_cluster_index_in_bounds_witness :
    cluster_idx 28.6139 77.2090 < 50 ∧
    (cluster_features 28.6139 77.2090).length = 50 ∧
    prepare_features ⟨fun _ => 0, fun _ => 0⟩ (loadGlobals ⟨[], 0, 0, 0, 0⟩)
        28.6139 77.2090 "2024-06-15" =
      some (prepare_feature_values ⟨fun _ => 0, fun _ => 0⟩
        (loadGlobals ⟨[], 0, 0, 0, 0⟩) 28.6139 77.2090 ⟨2024, 6, 15⟩) := by
  have h := c10_cluster_index_in_bounds 28.6139 77.2090
    (by norm_num) (by norm_num) (by norm_num) (by norm_num)
  exact ⟨h.1, h.2.1, h.2.2 _ _ "2024-06-15" ⟨2024, 6, 15⟩ (by decide)⟩

/-- Claim C5's reading of the source, refuted below: the year bounds the
process uses would be the ones carried by the loaded metadata artifact. -/
def exMetadata : TrainingMetadata :=
  { features := ["latitude", "longitude"]
    calibrated_r2 := 0.9
    calibrated_rmse := 1.2
    year_min := 2000
    year_max := 2020 }

/-- Counterexample to **C5** as stated: loading globals from a metadata
artifact whose year bounds are 2000/2020 still yields `year_min = 1994`
and `year_max = 2024`, so the bounds are not read from the metadata. -/
theorem c5_counterexample :
    (loadGlobals exMetadata).year_min ≠ exMetadata.year_min ∧
    (loadGlobals exMetadata).year_max ≠ exMetadata.year_max := by
  constructor <;> · simp only [loadGlobals, exMetadata]; norm_num

/-- **C5 (amended).** The two process-wide date bounds used by the year
cyclical encoding are the fixed module-level constants 1994 and 2024,
independent of the training metadata artifact; only the feature name
list is read from the metadata at startup. -/
theorem c5_year_bounds_are_constants (md : TrainingMetadata) :
    (loadGlobals md).year_min = 1994 ∧
    (loadGlobals md).year_max = 2024 ∧
    (loadGlobals md).features = md.features ∧
    (∀ (trig : TrigOracle) (dt : DateYMD),
      year_sin trig (loadGlobals md) dt =
        trig.sin01 (((dt.year : ℚ) - 1994) / (2024 - 1994)) ∧
      year_cos trig (loadGlobals md) dt =
        trig.cos01 (((dt.year : ℚ) - 1994) / (2024 - 1994))) :=
  ⟨rfl, rfl, rfl, fun _ _ => ⟨rfl, rfl⟩⟩

/-- **C6.** The seasonal flags: `is_summer = 1` iff the month is 4, 5
or 6; `is_winter = 1` iff it is 11, 12 or 1; `is_spring = 1` iff it is 2
or 3; and for months 7–10 all three flags are simultaneously 0. -/
theorem c6_seasonal_flags (dt : DateYMD) :
    (is_summer dt.month = 1 ↔ (dt.month = 4 ∨ dt.month = 5 ∨ dt.month = 6)) ∧
    (is_winter dt.month = 1 ↔ (dt.month = 11 ∨ dt.month = 12 ∨ dt.month = 1)) ∧
    (is_spring dt.month = 1 ↔ (dt.month = 2 ∨ dt.month = 3)) ∧
    ((dt.month = 7 ∨ dt.month = 8 ∨ dt.month = 9 ∨ dt.month = 10) →
      is_summer dt.month = 0 ∧ is_winter dt.month = 0 ∧ is_spring dt.month = 0) := by
  refine ⟨?_, ?_, ?_, ?_⟩
  · unfold is_summer; split_ifs with h <;> simp_all
  · unfold is_winter; split_ifs with h <;> simp_all
  · unfold is_spring; split_ifs with h <;> simp_all
  · rintro (h | h | h | h) <;> simp [is_summer, is_winter, is_spring, h]

/-- Witness for C6 at the date 2024-07-01 (month 7): all three seasonal
flags are 0. -/
theorem c6_seasonal_flags_witness :
    is_summer 7 = 0 ∧ is_winter 7 = 0 ∧ is_spring 7 = 0 :=
  (c6_seasonal_flags ⟨2024, 7, 1⟩).2.2.2 (Or.inl rfl)

lemma predict_ok_iff (trig : TrigOracle) (cfg : Globals) (a : Artifacts)
    (inp : PredictionInput) (out : PredictionOutput) :
    predict trig cfg a inp = .ok out ↔ predictCore trig cfg a inp = .ok out := by
  unfold predict
  cases h : predictCore trig cfg a inp <;> simp [Except.mapError]

lemma predictCore_ok_iff (trig : TrigOracle) (cfg : Globals) (a : Artifacts)
    (inp : PredictionInput) (out : PredictionOutput) :
    predictCore trig cfg a inp = .ok out ↔
    ∃ fv scaled x s r,
      prepare_features trig cfg inp.latitude inp.longitude inp.date = some fv ∧
      a.transform fv = .ok scaled ∧
      a.xgbPredict scaled = .ok x ∧
      a.stackingPredict scaled = .ok s ∧
      a.residualPredict scaled = .ok r ∧
      out = { prediction :=
                weighted_ensemble_predictions x s [a.xgb_weight, a.stacking_weight] + r
              confidence := some (confidence_of
                (weighted_ensemble_predictions x s [a.xgb_weight, a.stacking_weight] + r))
              units := "meters below ground level" } := by
  constructor
  · intro h
    unfold predictCore at h
    cases h1 : prepare_features trig cfg inp.latitude inp.longitude inp.date with
    | none => simp only [h1] at h; cases h
    | some fv =>
      simp only [h1] at h
      cases h2 : a.transform fv with
      | error e => simp only [h2] at h; cases h
      | ok scaled =>
        simp only [h2] at h
        cases h3 : a.xgbPredict scaled with
        | error e => simp only [h3] at h; cases h
        | ok x =>
          simp only [h3] at h
          cases h4 : a.stackingPredict scaled with
          | error e => simp only [h4] at h; cases h
          | ok s =>
            simp only [h4] at h
            cases h5 : a.residualPredict scaled with
            | error e => simp only [h5] at h; cases h
            | ok r =>
              simp only [h5, Except.ok.injEq] at h
              exact ⟨fv, scaled, x, s, r, rfl, h2, h3, h4, h5, h.symm⟩
  · rintro ⟨fv, scaled, x, s, r, h1, h2, h3, h4, h5, rfl⟩
    simp only [predictCore, h1, h2, h3, h4, h5]
    rfl

/-- The deterministic stub scenario of the spec: identity scaler, base
models returning the constants 5.0 and 7.0, blend weights 0.6 and 0.4,
and a residual model returning the constant 0.2. -/
def stubArtifacts : Artifacts :=
  { transform := fun v => .ok v
    xgbPredict := fun _ => .ok 5
    stackingPredict := fun _ => .ok 7
    residualPredict := fun _ => .ok 0.2
    xgb_weight := 0.6
    stacking_weight := 0.4 }

/-- A degenerate trig oracle for concrete witnesses (the stub scenario's
constant models never look at the features). -/
def trigZero : TrigOracle := ⟨fun _ => 0, fun _ => 0⟩

/-- The spec's end-to-end scenario input. -/
def inpStub : PredictionInput := ⟨28.6139, 77.2090, "2024-06-15"⟩

/-- **C4.** The returned confidence is
`max(0.7, 1.0 - |final_prediction - 10| / 20)`; it always lies in
`[0.7, 1]` and equals 1 exactly when the final prediction is 10, and
every successful `/predict` response carries exactly this score of its
own prediction. -/
theorem c4_confidence_heuristic :
    (∀ p : ℚ, confidence_of p = max 0.7 (1 - |p - 10| / 20) ∧
      0.7 ≤ confidence_of p ∧ confidence_of p ≤ 1 ∧
      (confidence_of p = 1 ↔ p = 10)) ∧
    (∀ (trig : TrigOracle) (cfg : Globals) (a : Artifacts)
        (inp : PredictionInput) (out : PredictionOutput),
      predict trig cfg a inp = .ok out →
      out.confidence = some (confidence_of out.prediction)) := by
  constructor
  · intro p
    have habs : (0 : ℚ) ≤ |p - 10| := abs_nonneg _
    refine ⟨rfl, le_max_left _ _, ?_, ?_⟩
    · apply max_le (by norm_num)
      have : (0 : ℚ) ≤ |p - 10| / 20 := by positivity
      linarith
    · constructor
      · intro h
        rcases max_choice (0.7 : ℚ) (1 - |p - 10| / 20) with hm | hm <;>
          rw [confidence_of] at h <;> rw [hm] at h
        · norm_num at h
        · have h0 : |p - 10| = 0 := by linarith
          have := abs_eq_zero.mp h0
          linarith
      · intro h
        subst h
        rw [confidence_of]
        norm_num
  · intro trig cfg a inp out h
    rw [predict_ok_iff, predictCore_ok_iff] at h
    obtain ⟨fv, scaled, x, s, r, _, _, _, _, _, rfl⟩ := h
    rfl

/-- Witness for C4: in the stub scenario the endpoint succeeds and the
returned confidence is the heuristic score of the returned prediction,
which lies in `[0.7, 1]`. -/
theorem c4_confidence_heuristic_witness :
    ∃ out, predict trigZero (loadGlobals ⟨[], 0, 0, 0, 0⟩) stubArtifacts inpStub = .ok out ∧
      out.confidence = some (confidence_of out.prediction) ∧
      0.7 ≤ confidence_of out.prediction ∧ confidence_of out.prediction ≤ 1 := by
  have h : predict trigZero (loadGlobals ⟨[], 0, 0, 0, 0⟩) stubArtifacts inpStub =
      .ok { prediction :=
              weighted_ensemble_predictions 5 7
                [stubArtifacts.xgb_weight, stubArtifacts.stacking_weight] + 0.2
            confidence := some (confidence_of
              (weighted_ensemble_predictions 5 7
                [stubArtifacts.xgb_weight, stubArtifacts.stacking_weight] + 0.2))
            units := "meters below ground level" } := by
    rw [predict_ok_iff, predictCore_ok_iff]
    exact ⟨_, _, 5, 7, 0.2, rfl, rfl, rfl, rfl, rfl, rfl⟩
  refine ⟨_, h, c4_confidence_heuristic.2 _ _ _ _ _ h, ?_, ?_⟩
  · exact (c4_confidence_heuristic.1 _).2.1
  · exact (c4_confidence_heuristic.1 _).2.2.1

/-- **C3.** Whenever every stage succeeds, the final prediction is
`xgb_weight * xgb_pred + stacking_weight * stacking_pred + residual_pred`
— the blend weights are applied as loaded, with no normalization. -/
theorem c3_ensemble_blend (trig : TrigOracle) (cfg : Globals) (a : Artifacts)
    (inp : PredictionInput) (fv scaled : List ℚ) (x s r : ℚ)
    (h1 : prepare_features trig cfg inp.latitude inp.longitude inp.date = some fv)
    (h2 : a.transform fv = .ok scaled)
    (h3 : a.xgbPredict scaled = .ok x)
    (h4 : a.stackingPredict scaled = .ok s)
    (h5 : a.residualPredict scaled = .ok r) :
    predict trig cfg a inp =
      .ok { prediction := a.xgb_weight * x + a.stacking_weight * s + r
            confidence := some (confidence_of
              (a.xgb_weight * x + a.stacking_weight * s + r))
            units := "meters below ground level" } := by
  rw [predict_ok_iff, predictCore_ok_iff]
  exact ⟨fv, scaled, x, s, r, h1, h2, h3, h4, h5, by
    simp [weighted_ensemble_predictions]⟩

/-- Witness for C3, the spec's end-to-end scenario: identity scaler,
constant base models 5.0 and 7.0, weights 0.6/0.4, constant residual
0.2, input (28.6139, 77.2090, 2024-06-15) — prediction
`0.6*5 + 0.4*7 + 0.2 = 6` and confidence `1 - |6 - 10|/20 = 0.8`. -/
theorem c3_ensemble_blend_witness :
    prepare_features trigZero (loadGlobals ⟨[], 0, 0, 0, 0⟩)
        inpStub.latitude inpStub.longitude inpStub.date =
      some (prepare_feature_values trigZero (loadGlobals ⟨[], 0, 0, 0, 0⟩)
        28.6139 77.2090 ⟨2024, 6, 15⟩) ∧
    predict trigZero (loadGlobals ⟨[], 0, 0, 0, 0⟩) stubArtifacts inpStub =
      .ok { prediction := 6
            confidence := some 0.8
            units := "meters below ground level" } := by
  refine ⟨rfl, ?_⟩
  have h := c3_ensemble_blend trigZero (loadGlobals ⟨[], 0, 0, 0, 0⟩)
    stubArtifacts inpStub
    (prepare_feature_values trigZero (loadGlobals ⟨[], 0, 0, 0, 0⟩)
      28.6139 77.2090 ⟨2024, 6, 15⟩)
    (prepare_feature_values trigZero (loadGlobals ⟨[], 0, 0, 0, 0⟩)
      28.6139 77.2090 ⟨2024, 6, 15⟩)
    5 7 0.2 rfl rfl rfl rfl rfl
  rw [h]
  have e1 : stubArtifacts.xgb_weight * 5 + stubArtifacts.stacking_weight * 7 + 0.2 = (6 : ℚ) := by
    simp only [stubArtifacts]
    norm_num
  rw [e1]
  have e2 : confidence_of 6 = (0.8 : ℚ) := by
    rw [confidence_of, show |(6 : ℚ) - 10| = 4 by rw [abs_sub_comm]; rw [abs_of_nonneg] <;> norm_num]
    rw [max_eq_right] <;> norm_num
  rw [e2]

/-- **C1.** For every valid input, feature synthesis returns a vector of
length exactly 65 whose entries are, in order: latitude, longitude,
doy_sin, doy_cos, month_sin, month_cos, year, year_sin, year_cos,
is_summer, is_winter, is_spring, spatial_lag_est, prev_measurement_est,
prev_year_measurement_est, followed by the 50 cluster features. -/
theorem c1_feature_vector_layout (trig : TrigOracle) (cfg : Globals)
    (lat lon : ℚ) (s : String) (dt : DateYMD) (h : parseDate s = some dt) :
    ∃ fv, prepare_features trig cfg lat lon s = some fv ∧
      fv.length = 65 ∧
      fv.getD 0 0 = lat ∧ fv.getD 1 0 = lon ∧
      fv.getD 2 0 = doy_sin trig dt ∧ fv.getD 3 0 = doy_cos trig dt ∧
      fv.getD 4 0 = month_sin trig dt ∧ fv.getD 5 0 = month_cos trig dt ∧
      fv.getD 6 0 = (dt.year : ℚ) ∧
      fv.getD 7 0 = year_sin trig cfg dt ∧ fv.getD 8 0 = year_cos trig cfg dt ∧
      fv.getD 9 0 = is_summer dt.month ∧ fv.getD 10 0 = is_winter dt.month ∧
      fv.getD 11 0 = is_spring dt.month ∧
      fv.getD 12 0 = cfg.spatial_lag_mean ∧
      fv.getD 13 0 = cfg.prev_measurement_mean ∧
      fv.getD 14 0 = cfg.prev_year_measurement_mean ∧
      fv.drop 15 = cluster_features lat lon ∧
      (cluster_features lat lon).length = 50 := by
  refine ⟨prepare_feature_values trig cfg lat lon dt, ?_, ?_, rfl, rfl, rfl, rfl,
    rfl, rfl, rfl, rfl, rfl, rfl, rfl, rfl, rfl, rfl, rfl,
    drop_15_feature_values trig cfg lat lon dt,
    length_cluster_features lat lon⟩
  · simp [prepare_features, h]
  · simp [prepare_feature_values, length_cluster_features]

/-- Witness for C1 at input (28.6139, 77.2090, "2024-06-15"): the
synthesized vector exists, has 65 entries, starts with the latitude,
and its tail from position 16 on is the cluster one-hot block. -/
theorem c1_feature_vector_layout_witness :
    parseDate "2024-06-15" = some ⟨2024, 6, 15⟩ ∧
    ∃ fv, prepare_features trigZero (loadGlobals ⟨[], 0, 0, 0, 0⟩)
        28.6139 77.2090 "2024-06-15" = some fv ∧
      fv.length = 65 ∧ fv.getD 0 0 = 28.6139 ∧
      fv.drop 15 = cluster_features 28.6139 77.2090 := by
  refine ⟨by decide, ?_⟩
  obtain ⟨fv, hfv, hlen, h0, _, _, _, _, _, _, _, _, _, _, _, _, _, _, hdrop, _⟩ :=
    c1_feature_vector_layout trigZero (loadGlobals ⟨[], 0, 0, 0, 0⟩)
      28.6139 77.2090 "2024-06-15" ⟨2024, 6, 15⟩ (by decide)
  exact ⟨fv, hfv, hlen, h0, hdrop⟩

lemma mkPredictionInput_cases (lat lon : ℚ) (d : String) :
    mkPredictionInput lat lon d =
      (if -90 ≤ lat ∧ lat ≤ 90 then
        if -180 ≤ lon ∧ lon ≤ 180 then
          if (parseDate d).isSome then .ok ⟨lat, lon, d⟩
          else .error "Date must be in YYYY-MM-DD format"
        else .error "Longitude must be between -180 and 180"
      else .error "Latitude must be between -90 and 90") := by
  unfold mkPredictionInput validate_latitude validate_longitude validate_date_format
  cases hp : parseDate d <;> split_ifs <;> first | rfl | (exfalso; simp_all)

/-- **C7.** Validation accepts latitudes exactly in `[-90, 90]` (both
endpoints included) and longitudes in `[-180, 180]`, and requires the
date string to parse as a calendar date; any violation is rejected as an
input error for every choice of model artifacts — before any model
computation runs — and `"2024-13-40"` is such a violation. -/
theorem c7_input_validation :
    (∀ (lat lon : ℚ) (d : String),
      (∃ inp, mkPredictionInput lat lon d = .ok inp) ↔
        (-90 ≤ lat ∧ lat ≤ 90 ∧ -180 ≤ lon ∧ lon ≤ 180 ∧
          (parseDate d).isSome = true)) ∧
    (∀ (lat lon : ℚ) (d : String) (trig : TrigOracle) (cfg : Globals) (a : Artifacts),
      ¬(-90 ≤ lat ∧ lat ≤ 90 ∧ -180 ≤ lon ∧ lon ≤ 180 ∧
          (parseDate d).isSome = true) →
      ∃ e, handleRequest trig cfg a lat lon d = .error (.inputError e)) ∧
    parseDate "2024-13-40" = none := by
  refine ⟨?_, ?_, by decide⟩
  · intro lat lon d
    rw [mkPredictionInput_cases]
    split_ifs with h1 h2 h3
    · simp [h1.1, h1.2, h2.1, h2.2, h3]
    · constructor
      · rintro ⟨inp, hinp⟩; cases hinp
      · intro hc; exact absurd hc.2.2.2.2 h3
    · constructor
      · rintro ⟨inp, hinp⟩; cases hinp
      · intro hc; exact absurd ⟨hc.2.2.1, hc.2.2.2.1⟩ h2
    · constructor
      · rintro ⟨inp, hinp⟩; cases hinp
      · intro hc; exact absurd ⟨hc.1, hc.2.1⟩ h1
  · intro lat lon d trig cfg a hbad
    unfold handleRequest
    rw [mkPredictionInput_cases]
    split_ifs with h1 h2 h3
    · exact absurd ⟨h1.1, h1.2, h2.1, h2.2, h3⟩ hbad
    · exact ⟨_, rfl⟩
    · exact ⟨_, rfl⟩
    · exact ⟨_, rfl⟩

/-- Witness for C7: latitude 90 and −90 are accepted, latitude 95 is
rejected as an input error (for the stub artifacts — the models are
never consulted), and so is the unparseable date `"2024-13-40"`. -/
theorem c7_input_validation_witness :
    (∃ inp, mkPredictionInput 90 0 "2024-06-15" = .ok inp) ∧
    (∃ inp, mkPredictionInput (-90) 0 "2024-06-15" = .ok inp) ∧
    (∃ e, handleRequest trigZero (loadGlobals ⟨[], 0, 0, 0, 0⟩) stubArtifacts
      95 0 "2024-06-15" = .error (.inputError e)) ∧
    (∃ e, handleRequest trigZero (loadGlobals ⟨[], 0, 0, 0, 0⟩) stubArtifacts
      0 0 "2024-13-40" = .error (.inputError e)) := by
  refine ⟨?_, ?_, ?_, ?_⟩
  · exact (c7_input_validation.1 90 0 "2024-06-15").mpr
      ⟨by norm_num, by norm_num, by norm_num, by norm_num, by decide⟩
  · exact (c7_input_validation.1 (-90) 0 "2024-06-15").mpr
      ⟨by norm_num, by norm_num, by norm_num, by norm_num, by decide⟩
  · exact c7_input_validation.2.1 95 0 "2024-06-15" trigZero _ stubArtifacts
      (fun hc => absurd hc.2.1 (by norm_num))
  · exact c7_input_validation.2.1 0 0 "2024-13-40" trigZero _ stubArtifacts
      (fun hc => absurd hc.2.2.2.2 (by decide))

/-- Artifacts whose scaler raises (a feature-count mismatch), used to
witness the error boundary of the endpoint. -/
def failingArtifacts : Artifacts :=
  { transform := fun _ => .error "X has 64 features, but StandardScaler is expecting 65 features as input."
    xgbPredict := fun _ => .ok 0
    stackingPredict := fun _ => .ok 0
    residualPredict := fun _ => .ok 0
    xgb_weight := 0.6
    stacking_weight := 0.4 }

/-- **C8.** For every validated input the endpoint either succeeds with a
complete output or fails with the generic prediction error; a success
means every stage (synthesis, scaling, both base models, residual model)
succeeded and the output is the full record, and a failing stage (here:
date re-parse, scaler) forces the generic error — never a partial
output. -/
theorem c8_prediction_error_boundary (trig : TrigOracle) (cfg : Globals)
    (a : Artifacts) (inp : PredictionInput) :
    ((∃ out, predict trig cfg a inp = .ok out) ∨
      (∃ msg, predict trig cfg a inp = .error (.predictionError msg))) ∧
    (∀ out, predict trig cfg a inp = .ok out →
      ∃ fv scaled x s r,
        prepare_features trig cfg inp.latitude inp.longitude inp.date = some fv ∧
        a.transform fv = .ok scaled ∧
        a.xgbPredict scaled = .ok x ∧
        a.stackingPredict scaled = .ok s ∧
        a.residualPredict scaled = .ok r ∧
        out = { prediction :=
                  weighted_ensemble_predictions x s [a.xgb_weight, a.stacking_weight] + r
                confidence := some (confidence_of
                  (weighted_ensemble_predictions x s [a.xgb_weight, a.stacking_weight] + r))
                units := "meters below ground level" }) ∧
    (∀ fv e, prepare_features trig cfg inp.latitude inp.longitude inp.date = some fv →
      a.transform fv = .error e →
      predict trig cfg a inp = .error (.predictionError ("Prediction error: " ++ e))) ∧
    (prepare_features trig cfg inp.latitude inp.longitude inp.date = none →
      ∃ msg, predict trig cfg a inp = .error (.predictionError msg)) := by
  refine ⟨?_, ?_, ?_, ?_⟩
  · cases h : predictCore trig cfg a inp with
    | error e =>
      exact Or.inr ⟨"Prediction error: " ++ e, by simp [predict, h, Except.mapError]⟩
    | ok o =>
      exact Or.inl ⟨o, by simp [predict, h, Except.mapError]⟩
  · intro out h
    rw [predict_ok_iff, predictCore_ok_iff] at h
    exact h
  · intro fv e hfv he
    have hcore : predictCore trig cfg a inp = .error e := by
      simp only [predictCore, hfv, he]
    simp [predict, hcore, Except.mapError]
  · intro hnone
    have hcore : predictCore trig cfg a inp = .error "time data does not match format" := by
      simp only [predictCore, hnone]
    exact ⟨"Prediction error: " ++ "time data does not match format",
      by simp [predict, hcore, Except.mapError]⟩

/-- Witness for C8: with a scaler that raises a feature-count mismatch,
the endpoint reports the generic prediction error for the scenario
input. -/
theorem c8_prediction_error_boundary_witness :
    prepare_features trigZero (loadGlobals ⟨[], 0, 0, 0, 0⟩)
        inpStub.latitude inpStub.longitude inpStub.date =
      some (prepare_feature_values trigZero (loadGlobals ⟨[], 0, 0, 0, 0⟩)
        28.6139 77.2090 ⟨2024, 6, 15⟩) ∧
    predict trigZero (loadGlobals ⟨[], 0, 0, 0, 0⟩) failingArtifacts inpStub =
      .error (.predictionError ("Prediction error: " ++
        "X has 64 features, but StandardScaler is expecting 65 features as input.")) :=
  ⟨rfl,
    (c8_prediction_error_boundary trigZero (loadGlobals ⟨[], 0, 0, 0, 0⟩)
      failingArtifacts inpStub).2.2.1
      (prepare_feature_values trigZero (loadGlobals ⟨[], 0, 0, 0, 0⟩)
        28.6139 77.2090 ⟨2024, 6, 15⟩)
      "X has 64 features, but StandardScaler is expecting 65 features as input."
      rfl rfl⟩

/-- **C9.** With fixed artifacts, handling the same raw request twice in
a row — the second call starting from the process log the first one left
behind — produces identical outcomes: the pipeline is a pure function of
its input, and the log is the only process state it touches. -/
theorem c9_handle_idempotent (trig : TrigOracle) (cfg : Globals) (a : Artifacts)
    (lat lon : ℚ) (d : String) (log : List String) :
    (handleLogged trig cfg a lat lon d log).1 =
      (handleLogged trig cfg a lat lon d
        ((handleLogged trig cfg a lat lon d log).2)).1 := by
  unfold handleLogged
  cases h : mkPredictionInput lat lon d with
  | error e => simp
  | ok inp => cases h2 : predict trig cfg a inp <;> simp [h2]

end AquaLive
